import Mathlib

set_option maxRecDepth 8192

/-!
Shallow embedding of the Noise_IKpsk2 handshake core of `noise_protocol.go`
(WireGuard-style tunnel endpoint).

The cryptographic primitives (Curve25519, BLAKE2s, ChaCha20-Poly1305, the
HKDF-style KDF chain) live in external libraries, so they are embedded
symbolically: a value of type `Val` is a formal byte-string term, Diffie-Hellman
is a commutative formal operation on key scalars, and AEAD sealing produces a
formal ciphertext that opens exactly under the sealing key and additional data.
The handshake functions themselves are translated line by line from the Go
source, with the mutation of `peer.handshake` made explicit as state passing
and the nondeterministic inputs (RNG, index allocation, clock) passed in as
environment records.
-/

namespace Noise

/-- Symbolic byte-string values: the initial chain key and hash constants,
Curve25519 public keys of scalar private keys, Diffie-Hellman shared secrets,
TAI64N timestamps, the empty byte string, the all-zero 32-byte block, BLAKE2s
transcript hashes (`mixHash`), KDF outputs (`kdfOut i c d` is the i-th HKDF
output `Ti` of chain key `c` and data `d`), and AEAD ciphertexts
`enc key plaintext aad`. -/
inductive Val : Type where
  | ick : Val
  | ih : Val
  | pub : Nat → Val
  | dh : Nat → Nat → Val
  | dhX : Nat → Val → Val
  | time : Nat → Val
  | emptyBytes : Val
  | zero32 : Val
  | mixH : Val → Val → Val
  | kdfOut : Nat → Val → Val → Val
  | enc : Val → Val → Val → Val
deriving DecidableEq

/-- Normalised Diffie-Hellman tag of two scalars: Curve25519 satisfies
`DH(a, pub b) = DH(b, pub a)`, so the shared secret of scalars `a` and `b` is
represented by the ordered pair `(min a b, max a b)`. -/
def dhTag (a b : Nat) : Val := Val.dh (min a b) (max a b)

/-- Embedding of `NoisePrivateKey.sharedSecret`: scalar multiplication of a
private scalar with a public point.  Applied to a well-formed public key it
yields the commutative DH tag; applied to any other byte string it yields an
uninterpreted point product. -/
def sharedSecret (sk : Nat) (pk : Val) : Val :=
  match pk with
  | Val.pub y => dhTag sk y
  | v => Val.dhX sk v

/-- Embedding of `NoisePrivateKey.publicKey`. -/
def publicKey (sk : Nat) : Val := Val.pub sk

/-- `InitalChainKey = BLAKE2s-256(NoiseConstruction)` (name kept from the
source, including its spelling). -/
def InitalChainKey : Val := Val.ick

/-- `InitalHash = BLAKE2s-256(InitalChainKey ∥ WGIdentifier)`. -/
def InitalHash : Val := Val.ih

/-- `KDF1(c, data) = T1` of the HKDF chain. -/
def KDF1 (c data : Val) : Val := Val.kdfOut 1 c data

/-- `KDF2(c, data) = (T1, T2)` of the HKDF chain. -/
def KDF2 (c data : Val) : Val × Val := (Val.kdfOut 1 c data, Val.kdfOut 2 c data)

/-- `KDF3(c, data) = (T1, T2, T3)` of the HKDF chain. -/
def KDF3 (c data : Val) : Val × Val × Val :=
  (Val.kdfOut 1 c data, Val.kdfOut 2 c data, Val.kdfOut 3 c data)

/-- `mixKey(c, data) = KDF1(c, data)`. -/
def mixKey (c data : Val) : Val := KDF1 c data

/-- `mixHash(h, data) = BLAKE2s-256(h ∥ data)`. -/
def mixHash (h data : Val) : Val := Val.mixH h data

/-- ChaCha20-Poly1305 `Seal` with the zero nonce: formal ciphertext recording
the key, the plaintext and the additional authenticated data. -/
def sealAead (key pt aad : Val) : Val := Val.enc key pt aad

/-- ChaCha20-Poly1305 `Open` with the zero nonce: succeeds exactly on a
ciphertext sealed under the same key and the same additional data, returning
its plaintext. -/
def openAead (key ct aad : Val) : Option Val :=
  match ct with
  | Val.enc k p a => if k = key ∧ a = aad then some p else none
  | _ => none

/-- Modelled from the spec: a TAI64N timestamp (8-byte seconds ∥ 4-byte
nanoseconds, big-endian) is a natural number, and `TAI64N.After` (defined
outside this file's source) is the strict order on these numbers.  A decrypted
12-byte block is read back as the timestamp it encodes, any non-timestamp
symbolic value reading as 0. -/
def valToTime : Val → Nat
  | Val.time t => t
  | _ => 0

/-- The five handshake states `HandshakeZeroed`, `HandshakeInitiationCreated`,
`HandshakeInitiationConsumed`, `HandshakeResponseCreated`,
`HandshakeResponseConsumed`. -/
inductive HandshakeState : Type where
  | zeroed : HandshakeState
  | initiationCreated : HandshakeState
  | initiationConsumed : HandshakeState
  | responseCreated : HandshakeState
  | responseConsumed : HandshakeState
deriving DecidableEq

/-- The mutable per-peer `Handshake` record (the mutex is not represented: the
embedding is of the code run under the lock). -/
structure Handshake : Type where
  state : HandshakeState
  hash : Val
  chainKey : Val
  presharedKey : Val
  localEphemeral : Nat
  localIndex : Nat
  remoteIndex : Nat
  remoteStatic : Val
  remoteEphemeral : Val
  precomputedStaticStatic : Val
  lastTimestamp : Nat
deriving DecidableEq

/-- The device's long-term static key pair (`device.privateKey`,
`device.publicKey`). -/
structure Device : Type where
  privateKey : Nat
  publicKey : Val
deriving DecidableEq

/-- Transport `KeyPair`: the `send` and `recv` AEAD instances are represented
by the 32-byte keys they were created from, plus the two counters. -/
structure KeyPair : Type where
  send : Val
  recv : Val
  sendNonce : Nat
  recvNonce : Nat
deriving DecidableEq

/-- Modelled from the spec: an `IndexTableEntry` is either bound to a live
handshake or to a transport key pair (the peer back-reference is implicit in
this one-peer embedding). -/
inductive IndexEntry : Type where
  | handshakeBound : IndexEntry
  | transportBound : KeyPair → IndexEntry
deriving DecidableEq

/-- Modelled from the spec: the device-wide index table, a finite map from
32-bit indices to entries. -/
def IndexTable : Type := List (Nat × IndexEntry)

instance : DecidableEq IndexTable := by
  unfold IndexTable
  infer_instance

/-- Modelled from the spec: `ClearIndex(i)` removes the entry at `i`;
`ClearIndex(0)` is a no-op. -/
def clearIndex (tbl : IndexTable) (i : Nat) : IndexTable :=
  if i = 0 then tbl else tbl.filter (fun e => e.1 ≠ i)

/-- Modelled from the spec: `Insert(i, entry)` replaces the entry at `i`. -/
def insertEntry (tbl : IndexTable) (i : Nat) (e : IndexEntry) : IndexTable :=
  (i, e) :: tbl.filter (fun p => p.1 ≠ i)

/-- Modelled from the spec: `NewIndex` draws a fresh random index.  The drawn
value `ret` and the error outcome `isErr` are environment inputs; on success
the index is bound to the calling peer's handshake, on failure the table is
untouched.  In either case `ret` is the value the Go multi-assignment writes
into `handshake.localIndex`. -/
def newIndexOp (tbl : IndexTable) (ret : Nat) (isErr : Bool) :
    IndexTable × Nat × Bool :=
  if isErr then (tbl, ret, false)
  else (insertEntry tbl ret IndexEntry.handshakeBound, ret, true)

/-- The error values surfaced by the `Create*` functions: the RNG failure of
`newPrivateKey`, the `NewIndex` allocation failure, and the
"handshake initation must be consumed first" invalid-state error of
`CreateMessageResponse`. -/
inductive CreateError : Type where
  | rngFailure : CreateError
  | indexFailure : CreateError
  | invalidState : CreateError
deriving DecidableEq

/-- Wire message type tags. -/
def MessageInitiationType : Nat := 1

def MessageResponseType : Nat := 2

/-- `MessageInitiation` (the MAC fields are written by the external cookie
layer and never read by this core, so they are omitted). -/
structure MessageInitiation : Type where
  type : Nat
  sender : Nat
  ephemeral : Val
  static : Val
  timestamp : Val
deriving DecidableEq

/-- `MessageResponse` (field spelling `reciever` kept from the source; MAC
fields omitted as above). -/
structure MessageResponse : Type where
  type : Nat
  sender : Nat
  reciever : Nat
  ephemeral : Val
  empty : Val
deriving DecidableEq

/-- Environment of one `CreateMessageInitiation` call: the value and error
outcome of `newPrivateKey()`, the value and error outcome of
`device.indices.NewIndex`, and the `Timestamp()` reading. -/
structure InitEnv : Type where
  ephRet : Nat
  ephErr : Bool
  idxRet : Nat
  idxErr : Bool
  now : Nat
deriving DecidableEq

/-- Environment of one `CreateMessageResponse` call. -/
structure RespEnv : Type where
  ephRet : Nat
  ephErr : Bool
  idxRet : Nat
  idxErr : Bool
deriving DecidableEq

/-- `Device.CreateMessageInitiation`, translated statement by statement; the
result is the returned message or error together with the handshake record and
index table after the call. -/
def CreateMessageInitiation (device : Device) (hs0 : Handshake)
    (tbl0 : IndexTable) (env : InitEnv) :
    Except CreateError MessageInitiation × Handshake × IndexTable :=
  let hs := { hs0 with
    chainKey := InitalChainKey
    hash := mixHash InitalHash hs0.remoteStatic
    localEphemeral := env.ephRet }
  if env.ephErr then (Except.error CreateError.rngFailure, hs, tbl0)
  else
    let tbl := clearIndex tbl0 hs.localIndex
    let alloc := newIndexOp tbl env.idxRet env.idxErr
    let tbl := alloc.1
    let hs := { hs with localIndex := alloc.2.1 }
    let ephPub := publicKey hs.localEphemeral
    if ¬ alloc.2.2 then (Except.error CreateError.indexFailure, hs, tbl)
    else
      let hs := { hs with
        chainKey := mixKey hs.chainKey ephPub
        hash := mixHash hs.hash ephPub }
      let ss := sharedSecret hs.localEphemeral hs.remoteStatic
      let kp := KDF2 hs.chainKey ss
      let hs := { hs with chainKey := kp.1 }
      let staticCt := sealAead kp.2 device.publicKey hs.hash
      let hs := { hs with hash := mixHash hs.hash staticCt }
      let ts := Val.time env.now
      let kp2 := KDF2 hs.chainKey hs.precomputedStaticStatic
      let hs := { hs with chainKey := kp2.1 }
      let tsCt := sealAead kp2.2 ts hs.hash
      let hs := { hs with
        hash := mixHash hs.hash tsCt
        state := HandshakeState.initiationCreated }
      (Except.ok
        { type := MessageInitiationType
          sender := hs.localIndex
          ephemeral := ephPub
          static := staticCt
          timestamp := tsCt }, hs, tbl)

/-- `Device.ConsumeMessageInitiation`.  `peerKnown` is modelled from the spec:
it is the device's `LookupPeer` peer table, deciding whether the decrypted
static key belongs to a known peer; `hs` is that peer's handshake record.  The
result pairs the success indicator (the returned peer, `none` for the Go `nil`)
with the handshake record after the call. -/
def ConsumeMessageInitiation (device : Device) (peerKnown : Val → Bool)
    (hs : Handshake) (msg : MessageInitiation) : Option Unit × Handshake :=
  if msg.type ≠ MessageInitiationType then (none, hs)
  else
    let hash := mixHash (mixHash InitalHash device.publicKey) msg.ephemeral
    let chainKey := mixKey InitalChainKey msg.ephemeral
    let ss := sharedSecret device.privateKey msg.ephemeral
    let kp := KDF2 chainKey ss
    let chainKey := kp.1
    match openAead kp.2 msg.static hash with
    | none => (none, hs)
    | some peerPK =>
      let hash := mixHash hash msg.static
      if ¬ peerKnown peerPK then (none, hs)
      else
        let kp2 := KDF2 chainKey hs.precomputedStaticStatic
        let chainKey := kp2.1
        match openAead kp2.2 msg.timestamp hash with
        | none => (none, hs)
        | some tsPt =>
          let timestamp := valToTime tsPt
          let hash := mixHash hash msg.timestamp
          if ¬ (hs.lastTimestamp < timestamp) then (none, hs)
          else
            (some (), { hs with
              hash := hash
              chainKey := chainKey
              remoteIndex := msg.sender
              remoteEphemeral := msg.ephemeral
              lastTimestamp := timestamp
              state := HandshakeState.initiationConsumed })

/-- `Device.CreateMessageResponse`, translated statement by statement. -/
def CreateMessageResponse (hs0 : Handshake) (tbl0 : IndexTable)
    (env : RespEnv) :
    Except CreateError MessageResponse × Handshake × IndexTable :=
  if hs0.state ≠ HandshakeState.initiationConsumed then
    (Except.error CreateError.invalidState, hs0, tbl0)
  else
    let tbl := clearIndex tbl0 hs0.localIndex
    let alloc := newIndexOp tbl env.idxRet env.idxErr
    let tbl := alloc.1
    let hs := { hs0 with localIndex := alloc.2.1 }
    if ¬ alloc.2.2 then (Except.error CreateError.indexFailure, hs, tbl)
    else
      let hs := { hs with localEphemeral := env.ephRet }
      if env.ephErr then (Except.error CreateError.rngFailure, hs, tbl)
      else
        let ephPub := publicKey hs.localEphemeral
        let hs := { hs with hash := mixHash hs.hash ephPub }
        let hs := { hs with
          chainKey := mixKey hs.chainKey
            (sharedSecret hs.localEphemeral hs.remoteEphemeral) }
        let hs := { hs with
          chainKey := mixKey hs.chainKey
            (sharedSecret hs.localEphemeral hs.remoteStatic) }
        let k3 := KDF3 hs.chainKey hs.presharedKey
        let hs := { hs with chainKey := k3.1, hash := mixHash hs.hash k3.2.1 }
        let emptyCt := sealAead k3.2.2 Val.emptyBytes hs.hash
        let hs := { hs with
          hash := mixHash hs.hash emptyCt
          state := HandshakeState.responseCreated }
        (Except.ok
          { type := MessageResponseType
            sender := hs.localIndex
            reciever := hs.remoteIndex
            ephemeral := ephPub
            empty := emptyCt }, hs, tbl)

/-- `Device.ConsumeMessageResponse`.  `lookupIsHandshake` is modelled from the
spec: it is `device.indices.Lookup`, deciding whether the receiver index is
bound to a live handshake; `hs` is that handshake record. -/
def ConsumeMessageResponse (device : Device) (lookupIsHandshake : Nat → Bool)
    (hs : Handshake) (msg : MessageResponse) : Option Unit × Handshake :=
  if msg.type ≠ MessageResponseType then (none, hs)
  else if ¬ lookupIsHandshake msg.reciever then (none, hs)
  else if hs.state ≠ HandshakeState.initiationCreated then (none, hs)
  else
    let hash := mixHash hs.hash msg.ephemeral
    let chainKey := hs.chainKey
    let chainKey := mixKey chainKey (sharedSecret hs.localEphemeral msg.ephemeral)
    let chainKey := mixKey chainKey (sharedSecret device.privateKey msg.ephemeral)
    let k3 := KDF3 chainKey hs.presharedKey
    let chainKey := k3.1
    let hash := mixHash hash k3.2.1
    match openAead k3.2.2 msg.empty hash with
    | none => (none, hs)
    | some _ =>
      let hash := mixHash hash msg.empty
      (some (), { hs with
        hash := hash
        chainKey := chainKey
        remoteIndex := msg.sender
        state := HandshakeState.responseConsumed })

/-- The per-peer `KeyPairs` slot set: the three rotating slots plus the
content of the one-slot `newKeyPair` signal channel (modelled from the spec:
the channel is buffered with capacity one, so its buffer is `none` when empty
and `some b` when a signal is pending). -/
structure KeyPairs : Type where
  previous : Option KeyPair
  current : Option KeyPair
  next : Option KeyPair
  newKeyPair : Option Bool
deriving DecidableEq

/-- Result of a completed `Peer.NewKeyPair` call: the returned key pair with
the `isInitiator` flag that drove the rotation (or `none` for the Go `nil`
return), and the handshake record, index table and key-pair slots after the
call. -/
structure NKPResult : Type where
  returned : Option (KeyPair × Bool)
  hs : Handshake
  tbl : IndexTable
  kps : KeyPairs
deriving DecidableEq

/-- `Peer.NewKeyPair`, translated statement by statement.  The outer `Option`
distinguishes completion from blocking: `kp.newKeyPair <- true` is an
unconditional send on the capacity-one channel, so when a signal is already
pending the send cannot complete and the function never returns, which the
embedding records as `none`. -/
def NewKeyPair (hs : Handshake) (tbl : IndexTable) (kps : KeyPairs) :
    Option NKPResult :=
  let derived : Option (Val × Val × Bool) :=
    if hs.state = HandshakeState.responseConsumed then
      let p := KDF2 hs.chainKey Val.emptyBytes
      some (p.1, p.2, true)
    else if hs.state = HandshakeState.responseCreated then
      let p := KDF2 hs.chainKey Val.emptyBytes
      some (p.2, p.1, false)
    else none
  match derived with
  | none => some { returned := none, hs := hs, tbl := tbl, kps := kps }
  | some d =>
    let keyPair : KeyPair :=
      { send := d.1, recv := d.2.1, sendNonce := 0, recvNonce := 0 }
    let isInitiator := d.2.2
    let tbl := insertEntry tbl hs.localIndex (IndexEntry.transportBound keyPair)
    let hs := { hs with localIndex := 0 }
    let rotated : Option KeyPairs :=
      if isInitiator then
        let kps := { kps with previous := kps.current, current := some keyPair }
        match kps.newKeyPair with
        | none => some { kps with newKeyPair := some true }
        | some _ => none
      else some { kps with next := some keyPair }
    match rotated with
    | none => none
    | some kps =>
      let hs := { hs with
        chainKey := Val.zero32
        localEphemeral := 0
        state := HandshakeState.zeroed }
      some { returned := some (keyPair, isInitiator), hs := hs, tbl := tbl, kps := kps }

/-- Commutativity of the symbolic Diffie-Hellman operation, mirroring
`DH(a, pub b) = DH(b, pub a)` of Curve25519. -/
theorem sharedSecret_pub (x y : Nat) :
    sharedSecret x (Val.pub y) = Val.dh (min x y) (max x y) := rfl

/-- An initiation message that passes every cryptographic check of
`ConsumeMessageInitiation` against device `device` and the handshake `hs` of
the peer with static public key `peerPK`: each sealed field is produced under
exactly the key and transcript hash the consumer recomputes, and the sealed
timestamp reads `t`.  This captures the spec's "otherwise-valid initiation". -/
def genuineInitiation (device : Device) (hs : Handshake) (ephemeral : Val)
    (sender : Nat) (peerPK : Val) (t : Nat) : MessageInitiation :=
  let hash := mixHash (mixHash InitalHash device.publicKey) ephemeral
  let chainKey := mixKey InitalChainKey ephemeral
  let ss := sharedSecret device.privateKey ephemeral
  let kp := KDF2 chainKey ss
  let staticCt := sealAead kp.2 peerPK hash
  let hash2 := mixHash hash staticCt
  let kp2 := KDF2 kp.1 hs.precomputedStaticStatic
  let tsCt := sealAead kp2.2 (Val.time t) hash2
  { type := MessageInitiationType
    sender := sender
    ephemeral := ephemeral
    static := staticCt
    timestamp := tsCt }

/-- Case shape of `ConsumeMessageInitiation`: every run either returns null
with the handshake verbatim, or succeeds with a strictly larger stored
timestamp. -/
theorem consumeInit_cases (device : Device) (peerKnown : Val → Bool)
    (hs : Handshake) (msg : MessageInitiation) :
    ConsumeMessageInitiation device peerKnown hs msg = (none, hs) ∨
    ((ConsumeMessageInitiation device peerKnown hs msg).1 = some () ∧
     hs.lastTimestamp <
       (ConsumeMessageInitiation device peerKnown hs msg).2.lastTimestamp) := by
  simp only [ConsumeMessageInitiation]
  repeat' split
  all_goals first
    | (left; rfl)
    | (rename_i hlt; exact Or.inr ⟨rfl, by simpa using hlt⟩)

/-- Case shape of `ConsumeMessageResponse`: every run either returns null with
the handshake verbatim, or succeeds. -/
theorem consumeResp_cases (device : Device) (lookupIsHandshake : Nat → Bool)
    (hs : Handshake) (msg : MessageResponse) :
    ConsumeMessageResponse device lookupIsHandshake hs msg = (none, hs) ∨
    (ConsumeMessageResponse device lookupIsHandshake hs msg).1 = some () := by
  simp only [ConsumeMessageResponse]
  repeat' split
  all_goals first
    | (left; rfl)
    | (right; rfl)

/-- C2: whenever `ConsumeMessageInitiation` or `ConsumeMessageResponse`
returns null — wrong type tag, AEAD failure, unknown peer, wrong state, or
replay — the recipient's handshake record is left completely unchanged. -/
theorem consume_null_leaves_handshake_unchanged :
    (∀ (device : Device) (peerKnown : Val → Bool) (hs : Handshake)
        (msg : MessageInitiation),
      (ConsumeMessageInitiation device peerKnown hs msg).1 = none →
      (ConsumeMessageInitiation device peerKnown hs msg).2 = hs) ∧
    (∀ (device : Device) (lookupIsHandshake : Nat → Bool) (hs : Handshake)
        (msg : MessageResponse),
      (ConsumeMessageResponse device lookupIsHandshake hs msg).1 = none →
      (ConsumeMessageResponse device lookupIsHandshake hs msg).2 = hs) := by
  constructor
  · intro device peerKnown hs msg h
    rcases consumeInit_cases device peerKnown hs msg with hc | hc
    · rw [hc]
    · rw [h] at hc
      exact absurd hc.1 (by simp)
  · intro device lookupIsHandshake hs msg h
    rcases consumeResp_cases device lookupIsHandshake hs msg with hc | hc
    · rw [hc]
    · rw [h] at hc
      exact absurd hc (by simp)

/-- Witness for C2 at a concrete input: a message with a wrong type tag is
rejected and leaves the handshake unchanged. -/
theorem consume_null_leaves_handshake_unchanged_witness :
    (ConsumeMessageInitiation ⟨1, Val.pub 1⟩ (fun _ => true)
      ⟨HandshakeState.zeroed, Val.zero32, Val.zero32, Val.emptyBytes, 0, 0, 0,
        Val.pub 2, Val.zero32, Val.dh 1 2, 0⟩
      ⟨0, 0, Val.zero32, Val.zero32, Val.zero32⟩).2 =
      ⟨HandshakeState.zeroed, Val.zero32, Val.zero32, Val.emptyBytes, 0, 0, 0,
        Val.pub 2, Val.zero32, Val.dh 1 2, 0⟩ ∧
    (ConsumeMessageResponse ⟨1, Val.pub 1⟩ (fun _ => true)
      ⟨HandshakeState.zeroed, Val.zero32, Val.zero32, Val.emptyBytes, 0, 0, 0,
        Val.pub 2, Val.zero32, Val.dh 1 2, 0⟩
      ⟨0, 0, 0, Val.zero32, Val.zero32⟩).2 =
      ⟨HandshakeState.zeroed, Val.zero32, Val.zero32, Val.emptyBytes, 0, 0, 0,
        Val.pub 2, Val.zero32, Val.dh 1 2, 0⟩ :=
  ⟨consume_null_leaves_handshake_unchanged.1 _ _ _ _ (by decide),
   consume_null_leaves_handshake_unchanged.2 _ _ _ _ (by decide)⟩

/-- C3: an otherwise-valid initiation whose decrypted timestamp is less than
or equal to the stored `lastTimestamp` is rejected with the handshake
untouched; one with a strictly greater timestamp is accepted and its timestamp
stored; and across all accepted initiations `lastTimestamp` is monotonically
non-decreasing. -/
theorem replay_rejects_le_accepts_gt :
    ∀ (device : Device) (peerKnown : Val → Bool) (hs : Handshake)
      (ephemeral : Val) (sender : Nat) (peerPK : Val) (t : Nat),
      peerKnown peerPK = true →
      ((t ≤ hs.lastTimestamp →
        ConsumeMessageInitiation device peerKnown hs
          (genuineInitiation device hs ephemeral sender peerPK t) = (none, hs)) ∧
       (hs.lastTimestamp < t →
        (ConsumeMessageInitiation device peerKnown hs
          (genuineInitiation device hs ephemeral sender peerPK t)).1 = some () ∧
        (ConsumeMessageInitiation device peerKnown hs
          (genuineInitiation device hs ephemeral sender peerPK t)).2.lastTimestamp = t) ∧
       (∀ msg : MessageInitiation,
        (ConsumeMessageInitiation device peerKnown hs msg).1 = some () →
        hs.lastTimestamp ≤
          (ConsumeMessageInitiation device peerKnown hs msg).2.lastTimestamp)) := by
  intro device peerKnown hs ephemeral sender peerPK t hknown
  refine ⟨?_, ?_, ?_⟩
  · intro hle
    simp [ConsumeMessageInitiation, genuineInitiation, openAead, sealAead,
      valToTime, hknown, Nat.not_lt.mpr hle]
  · intro hlt
    simp [ConsumeMessageInitiation, genuineInitiation, openAead, sealAead,
      valToTime, hknown, hlt]
  · intro msg h
    rcases consumeInit_cases device peerKnown hs msg with hc | hc
    · rw [hc] at h
      exact absurd h (by simp)
    · exact Nat.le_of_lt hc.2

/-- Witness for C3 at a concrete input: with `lastTimestamp = 5`, a timestamp
of 5 is rejected, a timestamp of 6 is accepted and stored. -/
theorem replay_rejects_le_accepts_gt_witness :
    (ConsumeMessageInitiation ⟨2, Val.pub 2⟩ (fun v => decide (v = Val.pub 1))
      ⟨HandshakeState.zeroed, Val.zero32, Val.zero32, Val.emptyBytes, 0, 0, 0,
        Val.pub 1, Val.zero32, Val.dh 1 2, 5⟩
      (genuineInitiation ⟨2, Val.pub 2⟩
        ⟨HandshakeState.zeroed, Val.zero32, Val.zero32, Val.emptyBytes, 0, 0, 0,
          Val.pub 1, Val.zero32, Val.dh 1 2, 5⟩ (Val.pub 3) 9 (Val.pub 1) 5) =
      (none,
        ⟨HandshakeState.zeroed, Val.zero32, Val.zero32, Val.emptyBytes, 0, 0, 0,
          Val.pub 1, Val.zero32, Val.dh 1 2, 5⟩)) ∧
    ((ConsumeMessageInitiation ⟨2, Val.pub 2⟩ (fun v => decide (v = Val.pub 1))
      ⟨HandshakeState.zeroed, Val.zero32, Val.zero32, Val.emptyBytes, 0, 0, 0,
        Val.pub 1, Val.zero32, Val.dh 1 2, 5⟩
      (genuineInitiation ⟨2, Val.pub 2⟩
        ⟨HandshakeState.zeroed, Val.zero32, Val.zero32, Val.emptyBytes, 0, 0, 0,
          Val.pub 1, Val.zero32, Val.dh 1 2, 5⟩ (Val.pub 3) 9 (Val.pub 1) 6)).1 =
      some ()) :=
  ⟨(replay_rejects_le_accepts_gt _ _ _ _ _ _ _ (by decide)).1 (by decide),
   ((replay_rejects_le_accepts_gt _ _ _ _ _ _ _ (by decide)).2.1 (by decide)).1⟩

/-- C10: when `NewIndex` fails inside `CreateMessageInitiation`, the error is
returned while the handshake has already been mutated — the previous
index-table entry was cleared and `chainKey`, `hash`, `localEphemeral` and
`localIndex` were overwritten — and the state tag is left unchanged (in
particular it is not advanced to `InitiationCreated`). -/
theorem create_initiation_index_failure_partial_mutation :
    ∀ (device : Device) (hs : Handshake) (tbl : IndexTable) (env : InitEnv),
      env.ephErr = false → env.idxErr = true →
      CreateMessageInitiation device hs tbl env =
        (Except.error CreateError.indexFailure,
         { hs with
            chainKey := InitalChainKey
            hash := mixHash InitalHash hs.remoteStatic
            localEphemeral := env.ephRet
            localIndex := env.idxRet },
         clearIndex tbl hs.localIndex) := by
  intro device hs tbl env h1 h2
  simp [CreateMessageInitiation, newIndexOp, h1, h2]

/-- Witness for C10 at a concrete input. -/
theorem create_initiation_index_failure_partial_mutation_witness :
    CreateMessageInitiation ⟨1, Val.pub 1⟩
      ⟨HandshakeState.zeroed, Val.zero32, Val.zero32, Val.emptyBytes, 0, 7, 0,
        Val.pub 2, Val.zero32, Val.dh 1 2, 0⟩
      [(7, IndexEntry.handshakeBound)] ⟨3, false, 9, true, 4⟩ =
      (Except.error CreateError.indexFailure,
       ⟨HandshakeState.zeroed, mixHash InitalHash (Val.pub 2), InitalChainKey,
        Val.emptyBytes, 3, 9, 0, Val.pub 2, Val.zero32, Val.dh 1 2, 0⟩,
       []) :=
  create_initiation_index_failure_partial_mutation _ _ _ _ (by decide) (by decide)

deriving instance DecidableEq for Except

/-- Counterexample to C4 as stated: at a concrete input where `newPrivateKey`
fails, `CreateMessageInitiation` surfaces the error but the handshake record
has already been mutated (its `chainKey` and `hash` were overwritten with the
fresh transcript constants), so "no field of the handshake state is mutated"
is false. -/
theorem rng_failure_no_mutation_cex :
    (CreateMessageInitiation ⟨1, Val.pub 1⟩
      ⟨HandshakeState.zeroed, Val.zero32, Val.zero32, Val.emptyBytes, 0, 0, 0,
        Val.pub 2, Val.zero32, Val.dh 1 2, 0⟩
      [] ⟨0, true, 0, false, 0⟩).1 = Except.error CreateError.rngFailure ∧
    (CreateMessageInitiation ⟨1, Val.pub 1⟩
      ⟨HandshakeState.zeroed, Val.zero32, Val.zero32, Val.emptyBytes, 0, 0, 0,
        Val.pub 2, Val.zero32, Val.dh 1 2, 0⟩
      [] ⟨0, true, 0, false, 0⟩).2.1 ≠
      ⟨HandshakeState.zeroed, Val.zero32, Val.zero32, Val.emptyBytes, 0, 0, 0,
        Val.pub 2, Val.zero32, Val.dh 1 2, 0⟩ := by decide

/-- C4 amended: when ephemeral generation fails, the error is surfaced to the
caller, but some handshake mutation has already happened — in
`CreateMessageInitiation` the `chainKey`, `hash` and `localEphemeral` fields
were already overwritten (the index table is untouched), and in
`CreateMessageResponse` the index table and `localIndex` were already updated
and `localEphemeral` was overwritten; in both cases the state tag is not
advanced. -/
theorem rng_failure_error_with_partial_mutation :
    (∀ (device : Device) (hs : Handshake) (tbl : IndexTable) (env : InitEnv),
      env.ephErr = true →
      CreateMessageInitiation device hs tbl env =
        (Except.error CreateError.rngFailure,
         { hs with
            chainKey := InitalChainKey
            hash := mixHash InitalHash hs.remoteStatic
            localEphemeral := env.ephRet }, tbl)) ∧
    (∀ (hs : Handshake) (tbl : IndexTable) (env : RespEnv),
      hs.state = HandshakeState.initiationConsumed →
      env.idxErr = false → env.ephErr = true →
      CreateMessageResponse hs tbl env =
        (Except.error CreateError.rngFailure,
         { hs with localIndex := env.idxRet, localEphemeral := env.ephRet },
         insertEntry (clearIndex tbl hs.localIndex) env.idxRet
           IndexEntry.handshakeBound)) := by
  constructor
  · intro device hs tbl env h
    simp [CreateMessageInitiation, h]
  · intro hs tbl env h1 h2 h3
    simp [CreateMessageResponse, newIndexOp, h1, h2, h3]

/-- Witness for the amended C4 at concrete inputs. -/
theorem rng_failure_error_with_partial_mutation_witness :
    (CreateMessageInitiation ⟨1, Val.pub 1⟩
      ⟨HandshakeState.zeroed, Val.zero32, Val.zero32, Val.emptyBytes, 0, 0, 0,
        Val.pub 2, Val.zero32, Val.dh 1 2, 0⟩
      [] ⟨4, true, 0, false, 0⟩ =
      (Except.error CreateError.rngFailure,
       ⟨HandshakeState.zeroed, mixHash InitalHash (Val.pub 2), InitalChainKey,
        Val.emptyBytes, 4, 0, 0, Val.pub 2, Val.zero32, Val.dh 1 2, 0⟩,
       [])) ∧
    (CreateMessageResponse
      ⟨HandshakeState.initiationConsumed, Val.zero32, Val.zero32,
        Val.emptyBytes, 0, 7, 0, Val.pub 2, Val.zero32, Val.dh 1 2, 0⟩
      [(7, IndexEntry.handshakeBound)] ⟨4, true, 9, false⟩ =
      (Except.error CreateError.rngFailure,
       ⟨HandshakeState.initiationConsumed, Val.zero32, Val.zero32,
        Val.emptyBytes, 4, 9, 0, Val.pub 2, Val.zero32, Val.dh 1 2, 0⟩,
       [(9, IndexEntry.handshakeBound)])) :=
  ⟨rng_failure_error_with_partial_mutation.1 _ _ _ _ (by decide),
   rng_failure_error_with_partial_mutation.2 _ _ _ (by decide) (by decide)
     (by decide)⟩

/-- C5: `NewKeyPair` in state `ResponseConsumed` derives
`(sendKey, recvKey) = KDF2(chainKey, ∅)` with `isInitiator = true`; in state
`ResponseCreated` it derives the same two keys in swapped order with
`isInitiator = false`; in every other state it returns null with no side
effects; and after a successful call `chainKey` and `localEphemeral` are
all-zero and the state is `Zeroed`.  (The initiator branch is stated for an
empty signal slot, where the publish completes.) -/
theorem new_key_pair_state_dispatch :
    ∀ (hs : Handshake) (tbl : IndexTable) (kps : KeyPairs),
      (hs.state = HandshakeState.responseConsumed → kps.newKeyPair = none →
        NewKeyPair hs tbl kps = some
          { returned := some
              ({ send := Val.kdfOut 1 hs.chainKey Val.emptyBytes
                 recv := Val.kdfOut 2 hs.chainKey Val.emptyBytes
                 sendNonce := 0, recvNonce := 0 }, true)
            hs := { hs with
              localIndex := 0
              chainKey := Val.zero32
              localEphemeral := 0
              state := HandshakeState.zeroed }
            tbl := insertEntry tbl hs.localIndex (IndexEntry.transportBound
              ⟨Val.kdfOut 1 hs.chainKey Val.emptyBytes,
               Val.kdfOut 2 hs.chainKey Val.emptyBytes, 0, 0⟩)
            kps := { kps with
              previous := kps.current
              current := some ⟨Val.kdfOut 1 hs.chainKey Val.emptyBytes,
                Val.kdfOut 2 hs.chainKey Val.emptyBytes, 0, 0⟩
              newKeyPair := some true } }) ∧
      (hs.state = HandshakeState.responseCreated →
        NewKeyPair hs tbl kps = some
          { returned := some
              ({ send := Val.kdfOut 2 hs.chainKey Val.emptyBytes
                 recv := Val.kdfOut 1 hs.chainKey Val.emptyBytes
                 sendNonce := 0, recvNonce := 0 }, false)
            hs := { hs with
              localIndex := 0
              chainKey := Val.zero32
              localEphemeral := 0
              state := HandshakeState.zeroed }
            tbl := insertEntry tbl hs.localIndex (IndexEntry.transportBound
              ⟨Val.kdfOut 2 hs.chainKey Val.emptyBytes,
               Val.kdfOut 1 hs.chainKey Val.emptyBytes, 0, 0⟩)
            kps := { kps with
              next := some ⟨Val.kdfOut 2 hs.chainKey Val.emptyBytes,
                Val.kdfOut 1 hs.chainKey Val.emptyBytes, 0, 0⟩ } }) ∧
      (hs.state ≠ HandshakeState.responseConsumed →
       hs.state ≠ HandshakeState.responseCreated →
        NewKeyPair hs tbl kps = some
          { returned := none, hs := hs, tbl := tbl, kps := kps }) := by
  intro hs tbl kps
  refine ⟨?_, ?_, ?_⟩
  · intro h1 h2
    simp [NewKeyPair, KDF2, h1, h2]
  · intro h1
    have h2 : hs.state ≠ HandshakeState.responseConsumed := by
      rw [h1]; intro hc; cases hc
    simp [NewKeyPair, KDF2, h1, h2]
  · intro h1 h2
    simp [NewKeyPair, h1, h2]

/-- Witness for C5 at concrete inputs: one call in each of the two permitted
states and one in a forbidden state. -/
theorem new_key_pair_state_dispatch_witness :
    NewKeyPair
      ⟨HandshakeState.responseConsumed, Val.zero32, Val.ick, Val.emptyBytes,
        3, 5, 6, Val.pub 2, Val.zero32, Val.dh 1 2, 0⟩
      [] ⟨none, none, none, none⟩ = some
      { returned := some
          ({ send := Val.kdfOut 1 Val.ick Val.emptyBytes
             recv := Val.kdfOut 2 Val.ick Val.emptyBytes
             sendNonce := 0, recvNonce := 0 }, true)
        hs := ⟨HandshakeState.zeroed, Val.zero32, Val.zero32, Val.emptyBytes,
          0, 0, 6, Val.pub 2, Val.zero32, Val.dh 1 2, 0⟩
        tbl := [(5, IndexEntry.transportBound
          ⟨Val.kdfOut 1 Val.ick Val.emptyBytes,
           Val.kdfOut 2 Val.ick Val.emptyBytes, 0, 0⟩)]
        kps := ⟨none, some ⟨Val.kdfOut 1 Val.ick Val.emptyBytes,
          Val.kdfOut 2 Val.ick Val.emptyBytes, 0, 0⟩, none, some true⟩ } ∧
    NewKeyPair
      ⟨HandshakeState.responseCreated, Val.zero32, Val.ick, Val.emptyBytes,
        3, 5, 6, Val.pub 2, Val.zero32, Val.dh 1 2, 0⟩
      [] ⟨none, none, none, none⟩ = some
      { returned := some
          ({ send := Val.kdfOut 2 Val.ick Val.emptyBytes
             recv := Val.kdfOut 1 Val.ick Val.emptyBytes
             sendNonce := 0, recvNonce := 0 }, false)
        hs := ⟨HandshakeState.zeroed, Val.zero32, Val.zero32, Val.emptyBytes,
          0, 0, 6, Val.pub 2, Val.zero32, Val.dh 1 2, 0⟩
        tbl := [(5, IndexEntry.transportBound
          ⟨Val.kdfOut 2 Val.ick Val.emptyBytes,
           Val.kdfOut 1 Val.ick Val.emptyBytes, 0, 0⟩)]
        kps := ⟨none, none, some ⟨Val.kdfOut 2 Val.ick Val.emptyBytes,
          Val.kdfOut 1 Val.ick Val.emptyBytes, 0, 0⟩, none⟩ } ∧
    NewKeyPair
      ⟨HandshakeState.zeroed, Val.zero32, Val.ick, Val.emptyBytes,
        3, 5, 6, Val.pub 2, Val.zero32, Val.dh 1 2, 0⟩
      [] ⟨none, none, none, none⟩ = some
      { returned := none
        hs := ⟨HandshakeState.zeroed, Val.zero32, Val.ick, Val.emptyBytes,
          3, 5, 6, Val.pub 2, Val.zero32, Val.dh 1 2, 0⟩
        tbl := []
        kps := ⟨none, none, none, none⟩ } :=
  ⟨(new_key_pair_state_dispatch _ _ _).1 (by decide) (by decide),
   (new_key_pair_state_dispatch _ _ _).2.1 (by decide),
   (new_key_pair_state_dispatch _ _ _).2.2 (by decide) (by decide)⟩

/-- C6: `CreateMessageResponse` outside state `InitiationConsumed` fails with
the invalid-state error before mutating anything, and it is the only
operation surfacing invalid-state: `ConsumeMessageResponse` outside
`InitiationCreated` and `NewKeyPair` in a forbidden state return null
instead (also without mutation). -/
theorem invalid_state_only_create_response :
    ∀ (hs : Handshake) (tbl : IndexTable) (env : RespEnv) (device : Device)
      (lookupIsHandshake : Nat → Bool) (msg : MessageResponse)
      (kps : KeyPairs),
      (hs.state ≠ HandshakeState.initiationConsumed →
        CreateMessageResponse hs tbl env =
          (Except.error CreateError.invalidState, hs, tbl)) ∧
      (hs.state ≠ HandshakeState.initiationCreated →
        ConsumeMessageResponse device lookupIsHandshake hs msg = (none, hs)) ∧
      (hs.state ≠ HandshakeState.responseConsumed →
       hs.state ≠ HandshakeState.responseCreated →
        NewKeyPair hs tbl kps = some
          { returned := none, hs := hs, tbl := tbl, kps := kps }) := by
  intro hs tbl env device lookupIsHandshake msg kps
  refine ⟨?_, ?_, ?_⟩
  · intro h
    simp [CreateMessageResponse, h]
  · intro h
    simp only [ConsumeMessageResponse]
    repeat' split
    all_goals rfl
  · intro h1 h2
    simp [NewKeyPair, h1, h2]

/-- Witness for C6 at concrete inputs (state `Zeroed` everywhere). -/
theorem invalid_state_only_create_response_witness :
    CreateMessageResponse
      ⟨HandshakeState.zeroed, Val.zero32, Val.ick, Val.emptyBytes,
        3, 5, 6, Val.pub 2, Val.zero32, Val.dh 1 2, 0⟩ [] ⟨1, false, 2, false⟩ =
      (Except.error CreateError.invalidState,
       ⟨HandshakeState.zeroed, Val.zero32, Val.ick, Val.emptyBytes,
        3, 5, 6, Val.pub 2, Val.zero32, Val.dh 1 2, 0⟩, []) ∧
    ConsumeMessageResponse ⟨1, Val.pub 1⟩ (fun _ => true)
      ⟨HandshakeState.zeroed, Val.zero32, Val.ick, Val.emptyBytes,
        3, 5, 6, Val.pub 2, Val.zero32, Val.dh 1 2, 0⟩
      ⟨2, 8, 5, Val.zero32, Val.zero32⟩ =
      (none,
       ⟨HandshakeState.zeroed, Val.zero32, Val.ick, Val.emptyBytes,
        3, 5, 6, Val.pub 2, Val.zero32, Val.dh 1 2, 0⟩) ∧
    NewKeyPair
      ⟨HandshakeState.zeroed, Val.zero32, Val.ick, Val.emptyBytes,
        3, 5, 6, Val.pub 2, Val.zero32, Val.dh 1 2, 0⟩ [] ⟨none, none, none, none⟩ =
      some { returned := none
             hs := ⟨HandshakeState.zeroed, Val.zero32, Val.ick, Val.emptyBytes,
               3, 5, 6, Val.pub 2, Val.zero32, Val.dh 1 2, 0⟩
             tbl := []
             kps := ⟨none, none, none, none⟩ } :=
  ⟨(invalid_state_only_create_response
      ⟨HandshakeState.zeroed, Val.zero32, Val.ick, Val.emptyBytes,
        3, 5, 6, Val.pub 2, Val.zero32, Val.dh 1 2, 0⟩
      [] ⟨1, false, 2, false⟩ ⟨1, Val.pub 1⟩ (fun _ => true)
      ⟨2, 8, 5, Val.zero32, Val.zero32⟩ ⟨none, none, none, none⟩).1 (by decide),
   (invalid_state_only_create_response
      ⟨HandshakeState.zeroed, Val.zero32, Val.ick, Val.emptyBytes,
        3, 5, 6, Val.pub 2, Val.zero32, Val.dh 1 2, 0⟩
      [] ⟨1, false, 2, false⟩ ⟨1, Val.pub 1⟩ (fun _ => true)
      ⟨2, 8, 5, Val.zero32, Val.zero32⟩ ⟨none, none, none, none⟩).2.1 (by decide),
   (invalid_state_only_create_response
      ⟨HandshakeState.zeroed, Val.zero32, Val.ick, Val.emptyBytes,
        3, 5, 6, Val.pub 2, Val.zero32, Val.dh 1 2, 0⟩
      [] ⟨1, false, 2, false⟩ ⟨1, Val.pub 1⟩ (fun _ => true)
      ⟨2, 8, 5, Val.zero32, Val.zero32⟩ ⟨none, none, none, none⟩).2.2 (by decide)
      (by decide)⟩

/-- C7: in the key-pair slot rotation of a completed `NewKeyPair`, the
initiator moves the old `current` into `previous` and installs the new key
pair as `current`, while the responder installs the new key pair into `next`
and leaves `previous` and `current` unchanged. -/
theorem key_pair_rotation_slots :
    ∀ (hs : Handshake) (tbl : IndexTable) (kps : KeyPairs) (out : NKPResult)
      (kp : KeyPair) (isInit : Bool),
      NewKeyPair hs tbl kps = some out →
      out.returned = some (kp, isInit) →
      (isInit = true →
        out.kps.previous = kps.current ∧ out.kps.current = some kp) ∧
      (isInit = false →
        out.kps.next = some kp ∧ out.kps.previous = kps.previous ∧
        out.kps.current = kps.current) := by
  intro hs tbl kps out kp isInit hEq hret
  cases hstate : hs.state
  case zeroed =>
    simp [NewKeyPair, hstate] at hEq
    subst hEq
    simp at hret
  case initiationCreated =>
    simp [NewKeyPair, hstate] at hEq
    subst hEq
    simp at hret
  case initiationConsumed =>
    simp [NewKeyPair, hstate] at hEq
    subst hEq
    simp at hret
  case responseConsumed =>
    rcases hslot : kps.newKeyPair with _ | b
    · simp [NewKeyPair, KDF2, hstate, hslot] at hEq
      subst hEq
      simp_all
    · simp [NewKeyPair, KDF2, hstate, hslot] at hEq
  case responseCreated =>
    simp [NewKeyPair, KDF2, hstate] at hEq
    subst hEq
    simp_all

/-- Witness for C7 at a concrete responder-side input. -/
theorem key_pair_rotation_slots_witness :
    (false = true →
      (⟨none, none, some ⟨Val.kdfOut 2 Val.ick Val.emptyBytes,
          Val.kdfOut 1 Val.ick Val.emptyBytes, 0, 0⟩, none⟩ : KeyPairs).previous =
        (none : Option KeyPair) ∧
      (⟨none, none, some ⟨Val.kdfOut 2 Val.ick Val.emptyBytes,
          Val.kdfOut 1 Val.ick Val.emptyBytes, 0, 0⟩, none⟩ : KeyPairs).current =
        some ⟨Val.kdfOut 2 Val.ick Val.emptyBytes,
          Val.kdfOut 1 Val.ick Val.emptyBytes, 0, 0⟩) ∧
    (false = false →
      (⟨none, none, some ⟨Val.kdfOut 2 Val.ick Val.emptyBytes,
          Val.kdfOut 1 Val.ick Val.emptyBytes, 0, 0⟩, none⟩ : KeyPairs).next =
        some ⟨Val.kdfOut 2 Val.ick Val.emptyBytes,
          Val.kdfOut 1 Val.ick Val.emptyBytes, 0, 0⟩ ∧
      (⟨none, none, some ⟨Val.kdfOut 2 Val.ick Val.emptyBytes,
          Val.kdfOut 1 Val.ick Val.emptyBytes, 0, 0⟩, none⟩ : KeyPairs).previous =
        (none : Option KeyPair) ∧
      (⟨none, none, some ⟨Val.kdfOut 2 Val.ick Val.emptyBytes,
          Val.kdfOut 1 Val.ick Val.emptyBytes, 0, 0⟩, none⟩ : KeyPairs).current =
        (none : Option KeyPair)) :=
  key_pair_rotation_slots
    ⟨HandshakeState.responseCreated, Val.zero32, Val.ick, Val.emptyBytes,
      3, 5, 6, Val.pub 2, Val.zero32, Val.dh 1 2, 0⟩
    [] ⟨none, none, none, none⟩
    { returned := some
        (⟨Val.kdfOut 2 Val.ick Val.emptyBytes,
          Val.kdfOut 1 Val.ick Val.emptyBytes, 0, 0⟩, false)
      hs := ⟨HandshakeState.zeroed, Val.zero32, Val.zero32, Val.emptyBytes,
        0, 0, 6, Val.pub 2, Val.zero32, Val.dh 1 2, 0⟩
      tbl := [(5, IndexEntry.transportBound
        ⟨Val.kdfOut 2 Val.ick Val.emptyBytes,
         Val.kdfOut 1 Val.ick Val.emptyBytes, 0, 0⟩)]
      kps := ⟨none, none, some ⟨Val.kdfOut 2 Val.ick Val.emptyBytes,
        Val.kdfOut 1 Val.ick Val.emptyBytes, 0, 0⟩, none⟩ }
    ⟨Val.kdfOut 2 Val.ick Val.emptyBytes,
      Val.kdfOut 1 Val.ick Val.emptyBytes, 0, 0⟩ false
    (by decide) (by decide)

/-- C9: a successful `NewKeyPair` changes only `chainKey`, `localEphemeral`,
`localIndex` and `state`: `lastTimestamp`, `hash`, `remoteIndex`,
`remoteStatic`, `remoteEphemeral`, `presharedKey` and
`precomputedStaticStatic` are unchanged, so the replay lower bound
`lastTimestamp` persists across completed handshakes. -/
theorem new_key_pair_frame :
    ∀ (hs : Handshake) (tbl : IndexTable) (kps : KeyPairs) (out : NKPResult),
      NewKeyPair hs tbl kps = some out →
      out.returned.isSome = true →
      out.hs.lastTimestamp = hs.lastTimestamp ∧ out.hs.hash = hs.hash ∧
      out.hs.remoteIndex = hs.remoteIndex ∧
      out.hs.remoteStatic = hs.remoteStatic ∧
      out.hs.remoteEphemeral = hs.remoteEphemeral ∧
      out.hs.presharedKey = hs.presharedKey ∧
      out.hs.precomputedStaticStatic = hs.precomputedStaticStatic ∧
      out.hs.chainKey = Val.zero32 ∧ out.hs.localEphemeral = 0 ∧
      out.hs.localIndex = 0 ∧ out.hs.state = HandshakeState.zeroed := by
  intro hs tbl kps out hEq hret
  cases hstate : hs.state
  case zeroed =>
    simp [NewKeyPair, hstate] at hEq
    subst hEq
    simp at hret
  case initiationCreated =>
    simp [NewKeyPair, hstate] at hEq
    subst hEq
    simp at hret
  case initiationConsumed =>
    simp [NewKeyPair, hstate] at hEq
    subst hEq
    simp at hret
  case responseConsumed =>
    rcases hslot : kps.newKeyPair with _ | b
    · simp [NewKeyPair, KDF2, hstate, hslot] at hEq
      subst hEq
      simp_all
    · simp [NewKeyPair, KDF2, hstate, hslot] at hEq
  case responseCreated =>
    simp [NewKeyPair, KDF2, hstate] at hEq
    subst hEq
    simp_all

/-- Witness for C9 at a concrete responder-side input. -/
theorem new_key_pair_frame_witness :
    (⟨HandshakeState.zeroed, Val.mixH Val.ih Val.ick, Val.zero32,
        Val.emptyBytes, 0, 0, 6, Val.pub 2, Val.pub 4, Val.dh 1 2, 11⟩
      : Handshake).lastTimestamp = 11 ∧
    (⟨HandshakeState.zeroed, Val.mixH Val.ih Val.ick, Val.zero32,
        Val.emptyBytes, 0, 0, 6, Val.pub 2, Val.pub 4, Val.dh 1 2, 11⟩
      : Handshake).hash = Val.mixH Val.ih Val.ick ∧
    (⟨HandshakeState.zeroed, Val.mixH Val.ih Val.ick, Val.zero32,
        Val.emptyBytes, 0, 0, 6, Val.pub 2, Val.pub 4, Val.dh 1 2, 11⟩
      : Handshake).remoteIndex = 6 ∧
    (⟨HandshakeState.zeroed, Val.mixH Val.ih Val.ick, Val.zero32,
        Val.emptyBytes, 0, 0, 6, Val.pub 2, Val.pub 4, Val.dh 1 2, 11⟩
      : Handshake).remoteStatic = Val.pub 2 ∧
    (⟨HandshakeState.zeroed, Val.mixH Val.ih Val.ick, Val.zero32,
        Val.emptyBytes, 0, 0, 6, Val.pub 2, Val.pub 4, Val.dh 1 2, 11⟩
      : Handshake).remoteEphemeral = Val.pub 4 ∧
    (⟨HandshakeState.zeroed, Val.mixH Val.ih Val.ick, Val.zero32,
        Val.emptyBytes, 0, 0, 6, Val.pub 2, Val.pub 4, Val.dh 1 2, 11⟩
      : Handshake).presharedKey = Val.emptyBytes ∧
    (⟨HandshakeState.zeroed, Val.mixH Val.ih Val.ick, Val.zero32,
        Val.emptyBytes, 0, 0, 6, Val.pub 2, Val.pub 4, Val.dh 1 2, 11⟩
      : Handshake).precomputedStaticStatic = Val.dh 1 2 ∧
    (⟨HandshakeState.zeroed, Val.mixH Val.ih Val.ick, Val.zero32,
        Val.emptyBytes, 0, 0, 6, Val.pub 2, Val.pub 4, Val.dh 1 2, 11⟩
      : Handshake).chainKey = Val.zero32 ∧
    (⟨HandshakeState.zeroed, Val.mixH Val.ih Val.ick, Val.zero32,
        Val.emptyBytes, 0, 0, 6, Val.pub 2, Val.pub 4, Val.dh 1 2, 11⟩
      : Handshake).localEphemeral = 0 ∧
    (⟨HandshakeState.zeroed, Val.mixH Val.ih Val.ick, Val.zero32,
        Val.emptyBytes, 0, 0, 6, Val.pub 2, Val.pub 4, Val.dh 1 2, 11⟩
      : Handshake).localIndex = 0 ∧
    (⟨HandshakeState.zeroed, Val.mixH Val.ih Val.ick, Val.zero32,
        Val.emptyBytes, 0, 0, 6, Val.pub 2, Val.pub 4, Val.dh 1 2, 11⟩
      : Handshake).state = HandshakeState.zeroed :=
  new_key_pair_frame
    ⟨HandshakeState.responseCreated, Val.mixH Val.ih Val.ick, Val.ick,
      Val.emptyBytes, 3, 5, 6, Val.pub 2, Val.pub 4, Val.dh 1 2, 11⟩
    [] ⟨none, none, none, none⟩
    { returned := some
        (⟨Val.kdfOut 2 Val.ick Val.emptyBytes,
          Val.kdfOut 1 Val.ick Val.emptyBytes, 0, 0⟩, false)
      hs := ⟨HandshakeState.zeroed, Val.mixH Val.ih Val.ick, Val.zero32,
        Val.emptyBytes, 0, 0, 6, Val.pub 2, Val.pub 4, Val.dh 1 2, 11⟩
      tbl := [(5, IndexEntry.transportBound
        ⟨Val.kdfOut 2 Val.ick Val.emptyBytes,
         Val.kdfOut 1 Val.ick Val.emptyBytes, 0, 0⟩)]
      kps := ⟨none, none, some ⟨Val.kdfOut 2 Val.ick Val.emptyBytes,
        Val.kdfOut 1 Val.ick Val.emptyBytes, 0, 0⟩, none⟩ }
    (by decide) (by decide)

/-- Counterexample to C8 as stated: at a concrete input with a signal already
pending in the one-slot buffer, the initiator-side publish of `NewKeyPair`
does not coalesce and complete — the unconditional channel send cannot
proceed, so the call never returns (embedded as `none`). -/
theorem new_key_pair_publish_blocks_cex :
    NewKeyPair
      ⟨HandshakeState.responseConsumed, Val.zero32, Val.ick, Val.emptyBytes,
        3, 5, 6, Val.pub 2, Val.zero32, Val.dh 1 2, 0⟩
      [] ⟨none, none, none, some true⟩ = none := by decide

/-- C8 amended: the publish onto the `newKeyPair` slot is an unconditional
send on the capacity-one channel: with an empty slot it completes and leaves
a signal pending, but when a signal is already pending the caller blocks
(the call does not complete) instead of coalescing the new signal. -/
theorem new_key_pair_send_unconditional :
    ∀ (hs : Handshake) (tbl : IndexTable) (kps : KeyPairs),
      hs.state = HandshakeState.responseConsumed →
      ((kps.newKeyPair = none →
        NewKeyPair hs tbl kps = some
          { returned := some
              ({ send := Val.kdfOut 1 hs.chainKey Val.emptyBytes
                 recv := Val.kdfOut 2 hs.chainKey Val.emptyBytes
                 sendNonce := 0, recvNonce := 0 }, true)
            hs := { hs with
              localIndex := 0
              chainKey := Val.zero32
              localEphemeral := 0
              state := HandshakeState.zeroed }
            tbl := insertEntry tbl hs.localIndex (IndexEntry.transportBound
              ⟨Val.kdfOut 1 hs.chainKey Val.emptyBytes,
               Val.kdfOut 2 hs.chainKey Val.emptyBytes, 0, 0⟩)
            kps := { kps with
              previous := kps.current
              current := some ⟨Val.kdfOut 1 hs.chainKey Val.emptyBytes,
                Val.kdfOut 2 hs.chainKey Val.emptyBytes, 0, 0⟩
              newKeyPair := some true } }) ∧
       (∀ b : Bool, kps.newKeyPair = some b →
        NewKeyPair hs tbl kps = none)) := by
  intro hs tbl kps h
  constructor
  · intro h2
    simp [NewKeyPair, KDF2, h, h2]
  · intro b h2
    simp [NewKeyPair, KDF2, h, h2]

/-- Witness for the amended C8 at concrete inputs: the send completes on an
empty slot and blocks on a full slot. -/
theorem new_key_pair_send_unconditional_witness :
    NewKeyPair
      ⟨HandshakeState.responseConsumed, Val.zero32, Val.ick, Val.emptyBytes,
        3, 5, 6, Val.pub 2, Val.zero32, Val.dh 1 2, 0⟩
      [] ⟨none, none, none, none⟩ = some
      { returned := some
          ({ send := Val.kdfOut 1 Val.ick Val.emptyBytes
             recv := Val.kdfOut 2 Val.ick Val.emptyBytes
             sendNonce := 0, recvNonce := 0 }, true)
        hs := ⟨HandshakeState.zeroed, Val.zero32, Val.zero32, Val.emptyBytes,
          0, 0, 6, Val.pub 2, Val.zero32, Val.dh 1 2, 0⟩
        tbl := [(5, IndexEntry.transportBound
          ⟨Val.kdfOut 1 Val.ick Val.emptyBytes,
           Val.kdfOut 2 Val.ick Val.emptyBytes, 0, 0⟩)]
        kps := ⟨none, some ⟨Val.kdfOut 1 Val.ick Val.emptyBytes,
          Val.kdfOut 2 Val.ick Val.emptyBytes, 0, 0⟩, none, some true⟩ } ∧
    NewKeyPair
      ⟨HandshakeState.responseConsumed, Val.zero32, Val.ick, Val.emptyBytes,
        3, 5, 6, Val.pub 2, Val.zero32, Val.dh 1 2, 0⟩
      [] ⟨none, none, none, some false⟩ = none :=
  ⟨(new_key_pair_send_unconditional _ [] ⟨none, none, none, none⟩
      (by decide)).1 (by decide),
   (new_key_pair_send_unconditional _ [] ⟨none, none, none, some false⟩
      (by decide)).2 false (by decide)⟩

/-- One complete honest handshake round between an initiator A (static
scalar `a`) and a responder B (static scalar `b`):
`CreateMessageInitiation` on A, `ConsumeMessageInitiation` on B,
`CreateMessageResponse` on B, `ConsumeMessageResponse` on A, then
`NewKeyPair` on both sides.  Returns A's and B's transport key pairs when
every step succeeds. -/
def fullRound (a b eA eB iA iB tNow : Nat) (hsA hsB : Handshake)
    (tblA tblB : IndexTable) (peerKnownB : Val → Bool)
    (lookupA : Nat → Bool) (kpsA kpsB : KeyPairs) :
    Option (KeyPair × KeyPair) :=
  let devA : Device := ⟨a, Val.pub a⟩
  let devB : Device := ⟨b, Val.pub b⟩
  let r1 := CreateMessageInitiation devA hsA tblA ⟨eA, false, iA, false, tNow⟩
  match r1.1 with
  | Except.error _ => none
  | Except.ok msg1 =>
    let r2 := ConsumeMessageInitiation devB peerKnownB hsB msg1
    match r2.1 with
    | none => none
    | some _ =>
      let r3 := CreateMessageResponse r2.2 tblB ⟨eB, false, iB, false⟩
      match r3.1 with
      | Except.error _ => none
      | Except.ok msg2 =>
        let r4 := ConsumeMessageResponse devA lookupA r1.2.1 msg2
        match r4.1 with
        | none => none
        | some _ =>
          match NewKeyPair r4.2 r1.2.2 kpsA, NewKeyPair r3.2.1 r3.2.2 kpsB with
          | some outA, some outB =>
            match outA.returned, outB.returned with
            | some pA, some pB => some (pA.1, pB.1)
            | _, _ => none
          | _, _ => none

/-- C1: for matching static keys and identical preshared keys, the full
round yields transport key pairs with A's send key equal to B's receive key
and A's receive key equal to B's send key. -/
theorem full_round_transport_keys_agree :
    ∀ (a b eA eB iA iB tNow : Nat) (psk : Val) (hsA hsB : Handshake)
      (tblA tblB : IndexTable) (peerKnownB : Val → Bool)
      (lookupA : Nat → Bool) (kpsA kpsB : KeyPairs),
      hsA.remoteStatic = Val.pub b →
      hsA.precomputedStaticStatic = sharedSecret a (Val.pub b) →
      hsA.presharedKey = psk →
      hsB.remoteStatic = Val.pub a →
      hsB.precomputedStaticStatic = sharedSecret b (Val.pub a) →
      hsB.presharedKey = psk →
      peerKnownB (Val.pub a) = true →
      hsB.lastTimestamp < tNow →
      lookupA iA = true →
      kpsA.newKeyPair = none →
      ∃ kpA kpB : KeyPair,
        fullRound a b eA eB iA iB tNow hsA hsB tblA tblB peerKnownB lookupA
          kpsA kpsB = some (kpA, kpB) ∧
        kpA.send = kpB.recv ∧ kpA.recv = kpB.send := by
  intro a b eA eB iA iB tNow psk hsA hsB tblA tblB peerKnownB lookupA kpsA kpsB
  intro h1 h2 h3 h4 h5 h6 h7 h8 h9 h10
  exact ⟨_, _,
    by
      simp only [fullRound, CreateMessageInitiation, ConsumeMessageInitiation,
        CreateMessageResponse, ConsumeMessageResponse, NewKeyPair, KDF2, KDF3,
        mixKey, KDF1, mixHash, sealAead, openAead, publicKey, sharedSecret,
        dhTag, valToTime, InitalChainKey, InitalHash, MessageInitiationType,
        MessageResponseType, newIndexOp, h1, h2, h3, h4, h5, h6, h7, h8, h9,
        h10]
      simp [Nat.min_comm, Nat.max_comm, h7, h8, h9, h10]
      exact ⟨rfl, rfl⟩,
    rfl, rfl⟩

/-- Witness for C1 at concrete inputs: static scalars 1 and 2, ephemeral
scalars 3 and 4, a zero preshared key, and timestamp 7. -/
theorem full_round_transport_keys_agree_witness :
    ∃ kpA kpB : KeyPair,
      fullRound 1 2 3 4 10 11 7
        ⟨HandshakeState.zeroed, Val.zero32, Val.zero32, Val.emptyBytes, 0, 0,
          0, Val.pub 2, Val.zero32, Val.dh 1 2, 0⟩
        ⟨HandshakeState.zeroed, Val.zero32, Val.zero32, Val.emptyBytes, 0, 0,
          0, Val.pub 1, Val.zero32, Val.dh 1 2, 0⟩
        [] [] (fun v => decide (v = Val.pub 1)) (fun n => decide (n = 10))
        ⟨none, none, none, none⟩ ⟨none, none, none, none⟩ = some (kpA, kpB) ∧
      kpA.send = kpB.recv ∧ kpA.recv = kpB.send :=
  full_round_transport_keys_agree 1 2 3 4 10 11 7 Val.emptyBytes _ _ [] []
    _ _ _ _ (by decide) (by decide) (by decide) (by decide) (by decide)
    (by decide) (by decide) (by decide) (by decide) (by decide)

end Noise
